import Mathlib

/-!
# Verification of the ftdu serial-protocol client

Shallow embedding of the request/response layer of `ftdu.py`: the `comm`
exchange of `BaseFtDuino`, the typed facade methods built on it, and the
discovery scan `ftduino_find_by_name`.

The serial transport is modelled as a `Conn` record carrying the script of
raw reply lines the device will deliver to successive `readline` calls
(an empty script models a timed-out read that returns no bytes, as pyserial
does on timeout) together with the trace of lines written to the wire.
Python exceptions are modelled by `Except PyErr`; a facade method returns
the connection state after the call, so "performs no I/O" is literally
"the returned connection equals the initial one".
-/

set_option autoImplicit false

namespace Ftdu

/-- Python exception kinds raised by the client code. -/
inductive PyErr
  | valueError
  | typeError
  deriving DecidableEq, Repr

/-- `OFF = 0` -/
def OFF : Int := 0

/-- `HIGH = 1` -/
def HIGH : Int := 1

/-- `LOW = 2` -/
def LOW : Int := 2

/-- `MIN = OFF` -/
def MIN : Int := OFF

/-- `MAX = 512` -/
def MAX : Int := 512

/-- `_VALID_INPUT_MODES = ('switch', 'resistance', 'voltage')` -/
def VALID_INPUT_MODES : List String := ["switch", "resistance", "voltage"]

/-- `_VALID_MOTOR_DIRECTIONS = ('left', 'right', 'brake', 'off')` -/
def VALID_MOTOR_DIRECTIONS : List String := ["left", "right", "brake", "off"]

/-- `_VALID_COUNTER_MODES = ('none', 'rising', 'falling', 'any')` -/
def VALID_COUNTER_MODES : List String := ["none", "rising", "falling", "any"]

/-- Connection state: the pending script of raw reply lines the simulated
device returns to successive `readline` calls, and the trace of lines
written to the wire. -/
structure Conn where
  replies : List String
  writes : List String
  deriving DecidableEq, Repr

/-- `conn.readline()`: pops the next scripted raw reply line; an exhausted
script models a read that times out with no bytes and returns `b''`. -/
def readline (c : Conn) : Conn × String :=
  match c.replies with
  | [] => (c, "")
  | r :: rs => ({ c with replies := rs }, r)

/-- `BaseFtDuino.comm(cmd)`: appends the line terminator, writes the line,
reads one raw reply line `data`; returns `None` if `data == '\n'` and
`data[:-2]` otherwise. Buffer resets do not affect the scripted replies. -/
def comm (c : Conn) (cmd : String) : Conn × Option String :=
  let cmd2 := cmd ++ "\n"
  let c1 : Conn := { c with writes := c.writes ++ [cmd2] }
  let p := readline c1
  if p.2 = "\n" then (p.1, none) else (p.1, some (p.2.dropRight 2))

/-- Python `str.lower()` (ASCII fragment, which covers every mode and
direction token of the protocol). -/
def pyToLower (s : String) : String :=
  String.mk (s.toList.map Char.toLower)

/-- Strips leading and trailing whitespace from a character list, as Python
`int()` does to its string argument before parsing. -/
def pyStrip (l : List Char) : List Char :=
  ((l.dropWhile Char.isWhitespace).reverse.dropWhile Char.isWhitespace).reverse

/-- Value of a list of decimal digit characters. -/
def digitsVal (l : List Char) : Nat :=
  l.foldl (fun acc c => acc * 10 + (c.toNat - 48)) 0

/-- Python `int(s)` on a string: strips surrounding whitespace, allows one
leading sign, then requires a nonempty run of decimal digits; any other
shape raises `ValueError`. -/
def pyIntParse (s : String) : Option Int :=
  let cs := pyStrip s.toList
  match cs with
  | [] => none
  | c :: rest =>
    let ds := if c = '-' ∨ c = '+' then rest else cs
    if ds ≠ [] ∧ ds.all Char.isDigit then
      some (if c = '-' then -(digitsVal ds : Int) else (digitsVal ds : Int))
    else none

/-- Python `int(x)` applied to the result of `comm`: `int(None)` raises
`TypeError`, a non-numeric string raises `ValueError`. -/
def pyInt (v : Option String) : Except PyErr Int :=
  match v with
  | none => Except.error PyErr.typeError
  | some s =>
    match pyIntParse s with
    | none => Except.error PyErr.valueError
    | some n => Except.ok n

/-- `BaseFtDuino.output_set(port, mode, pwm=None)`: rejects a mode outside
`(OFF, HIGH, LOW)` with `ValueError` before any I/O, defaults an omitted pwm
to `MAX` for `HIGH` and `MIN` otherwise, and emits
`output_set <port> <mode> <pwm>`. -/
def output_set (c : Conn) (port : String) (mode : Int) (pwm : Option Int) :
    Conn × Except PyErr Unit :=
  if mode = OFF ∨ mode = HIGH ∨ mode = LOW then
    let pwmv : Int :=
      match pwm with
      | none => if mode = HIGH then MAX else MIN
      | some v => v
    ((comm c ("output_set " ++ port ++ " " ++ toString mode ++ " " ++ toString pwmv)).1,
      Except.ok ())
  else (c, Except.error PyErr.valueError)

/-- `BaseFtDuino.input_get(port)`: emits `input_get <port>` and applies
Python `int()` to the reply. -/
def input_get (c : Conn) (port : String) : Conn × Except PyErr Int :=
  let p := comm c ("input_get " ++ port)
  (p.1, pyInt p.2)

/-- `BaseFtDuino.input_set_mode(port, mode)`: rejects a mode whose lowercase
form is outside `_VALID_INPUT_MODES` with `ValueError` before any I/O, and
emits `input_set_mode <port> <mode>` with the caller's original string. -/
def input_set_mode (c : Conn) (port mode : String) : Conn × Except PyErr Unit :=
  if pyToLower mode ∈ VALID_INPUT_MODES then
    ((comm c ("input_set_mode " ++ port ++ " " ++ mode)).1, Except.ok ())
  else (c, Except.error PyErr.valueError)

/-- `BaseFtDuino.counter_set_mode(port, mode)`: rejects a mode whose
lowercase form is outside `_VALID_COUNTER_MODES` with `ValueError` before
any I/O, and emits `counter_set_mode <port> <mode>`. -/
def counter_set_mode (c : Conn) (port mode : String) : Conn × Except PyErr Unit :=
  if pyToLower mode ∈ VALID_COUNTER_MODES then
    ((comm c ("counter_set_mode " ++ port ++ " " ++ mode)).1, Except.ok ())
  else (c, Except.error PyErr.valueError)

/-- `BaseFtDuino.counter_get_state(port)`: emits `counter_get_state <port>`
and returns the Python comparison `comm(...) == '1'`. -/
def counter_get_state (c : Conn) (port : String) : Conn × Bool :=
  let p := comm c ("counter_get_state " ++ port)
  (p.1, p.2 == some "1")

/-- `BaseFtDuino.motor_set(port, mode, pwm=None)`: rejects a direction whose
lowercase form is outside `_VALID_MOTOR_DIRECTIONS` with `ValueError` before
any I/O, defaults an omitted pwm to `MAX`, and emits
`motor_set <port> <mode> <pwm>` with the caller's original direction. -/
def motor_set (c : Conn) (port mode : String) (pwm : Option Int) :
    Conn × Except PyErr Unit :=
  if pyToLower mode ∈ VALID_MOTOR_DIRECTIONS then
    let pwmv : Int :=
      match pwm with
      | none => MAX
      | some v => v
    ((comm c ("motor_set " ++ port ++ " " ++ mode ++ " " ++ toString pwmv)).1,
      Except.ok ())
  else (c, Except.error PyErr.valueError)

/-- `BaseFtDuino.motor_counter(port, mode, pwm, counter)`: rejects a
direction whose lowercase form is outside `_VALID_MOTOR_DIRECTIONS` with
`ValueError` before any I/O, and emits
`motor_counter <port> <mode> <pwm> <counter>`. -/
def motor_counter (c : Conn) (port mode : String) (pwm counter : Int) :
    Conn × Except PyErr Unit :=
  if pyToLower mode ∈ VALID_MOTOR_DIRECTIONS then
    ((comm c ("motor_counter " ++ port ++ " " ++ mode ++ " "
        ++ toString pwm ++ " " ++ toString counter)).1, Except.ok ())
  else (c, Except.error PyErr.valueError)

/-- `BaseFtDuino.led_set(enable)`: emits `led_set 1` or `led_set 0` and
returns Python `None` (no parsed value). -/
def led_set (c : Conn) (enable : Bool) : Conn × Unit :=
  ((comm c ("led_set " ++ (if enable then "1" else "0"))).1, ())

/-- `ftduino_find_by_name(name)`: linear scan over the `(path, name)` pairs
yielded by `ftduino_iter()` (modelled as an explicit finite list); returns
the first path whose device name equals `name`, else `None`. -/
def ftduino_find_by_name (name : String) :
    List (String × String) → Option String
  | [] => none
  | (path, device_name) :: rest =>
    if device_name = name then some path else ftduino_find_by_name name rest

/-! ## Basic lemmas about the exchange layer -/

/-- `comm` always writes exactly the command line with the terminator
appended and consumes at most the first scripted reply. -/
theorem comm_fst (c : Conn) (cmd : String) :
    (comm c cmd).1
      = { replies := c.replies.tail, writes := c.writes ++ [cmd ++ "\n"] } := by
  rcases c with ⟨rs, w⟩
  cases rs with
  | nil => rfl
  | cons r rest =>
    simp only [comm, readline]
    split <;> rfl

/-- Reply parsing of `comm` when a raw reply line is available. -/
theorem comm_snd_cons (rest w : List String) (cmd raw : String) :
    (comm { replies := raw :: rest, writes := w } cmd).2
      = if raw = "\n" then none else some (raw.dropRight 2) := by
  rcases eq_or_ne raw "\n" with h | h <;> simp [comm, readline, h]

/-- Reply parsing of `comm` on a read that timed out with no bytes. -/
theorem comm_snd_nil (w : List String) (cmd : String) :
    (comm { replies := [], writes := w } cmd).2 = some "" := rfl

/-- On the valid-mode path, `input_set_mode` performs exactly one exchange. -/
theorem input_set_mode_ok (c : Conn) (port mode : String)
    (h : pyToLower mode ∈ VALID_INPUT_MODES) :
    input_set_mode c port mode
      = ((comm c ("input_set_mode " ++ port ++ " " ++ mode)).1, Except.ok ()) := by
  simp only [input_set_mode, if_pos h]

/-- `ftduino_find_by_name` returns `none` when no enumerated device carries
the requested name. -/
theorem find_by_name_none (name : String) (l : List (String × String))
    (h : ∀ p ∈ l, p.2 ≠ name) : ftduino_find_by_name name l = none := by
  induction l with
  | nil => rfl
  | cons d rest ih =>
    rcases d with ⟨path, dname⟩
    have hd : dname ≠ name := h ⟨path, dname⟩ (List.mem_cons_self _ _)
    simp only [ftduino_find_by_name, if_neg hd]
    exact ih fun p hp => h p (List.mem_cons_of_mem _ hp)

/-! ## The claims -/

/-- C1: the claim is false on the code. On an open connection a raw reply of
exactly a bare line terminator makes `comm` return `none`, but a timed-out
read that returns no bytes makes `comm` return `some ""` — a different
value, so the two absence cases do not coincide. -/
theorem C1_counterexample :
    (comm { replies := ["\n"], writes := [] } "led_set 1").2 = none
    ∧ (comm { replies := [], writes := [] } "led_set 1").2 = some ""
    ∧ some "" ≠ (none : Option String) := by
  refine ⟨rfl, rfl, ?_⟩
  decide

/-- C1 (amended): a raw reply of exactly a bare line terminator makes `comm`
return the absence value `none`, while a timed-out read with no bytes makes
it return the empty string `some ""`; the caller can therefore distinguish
the two cases. -/
theorem C1_amended_thm (rest w : List String) (cmd : String) :
    (comm { replies := "\n" :: rest, writes := w } cmd).2 = none
    ∧ (comm { replies := [], writes := w } cmd).2 = some "" := by
  constructor
  · rw [comm_snd_cons]
    simp
  · exact comm_snd_nil w cmd

/-- C2: the claim is false on the code. A raw reply `"42\n"` does not get
only its trailing line terminator stripped: `comm` removes the last two
characters unconditionally and returns `"4"`, dropping the payload
character `'2'`. -/
theorem C2_counterexample :
    (comm { replies := ["42\n"], writes := [] } "input_get I1").2 = some "4"
    ∧ "4" ≠ "42" := by
  refine ⟨rfl, ?_⟩
  decide

/-- C2 (amended): for every raw reply other than a bare line terminator,
`comm` returns the reply with its last two characters removed — which
strips exactly the terminator when the reply ends in the two-character
CRLF sequence, and removes payload characters otherwise. -/
theorem C2_amended_thm (rest w : List String) (cmd raw : String)
    (h : raw ≠ "\n") :
    (comm { replies := raw :: rest, writes := w } cmd).2
      = some (raw.dropRight 2) := by
  rw [comm_snd_cons, if_neg h]

/-- C2 (witness): a CRLF-terminated raw reply `"ok\r\n"` yields the
payload `"ok"`. -/
theorem C2_amended_witness :
    (comm { replies := ["ok\r\n"], writes := [] } "ftduino_id_get").2
      = some "ok" := by
  have h := C2_amended_thm [] [] "ftduino_id_get" "ok\r\n" (by decide)
  rw [h]
  rfl

/-- C3: the claim is false on the code. On the reply `"0"` followed by the
line terminator `"\n"`, `comm` strips two characters and hands `int()` the
empty string, so `input_get` raises `ValueError` instead of returning 0. -/
theorem C3_counterexample :
    (input_get { replies := ["0\n"], writes := [] } "I1").2
      = Except.error PyErr.valueError := rfl

/-- C3 (amended): `input_get` emits `input_get <port>`; a reply of `"0"`
followed by the two-character CRLF terminator yields the integer 0; an
absent reply raises `TypeError` and a reply whose two-character-stripped
form is non-numeric raises `ValueError` (the Python exceptions standing
for the spec's `ProtocolError`). -/
theorem C3_amended_thm (rest w : List String) (port raw : String) :
    ((input_get { replies := raw :: rest, writes := w } port).1.writes
        = w ++ ["input_get " ++ port ++ "\n"])
    ∧ (raw = "0\r\n" →
        (input_get { replies := raw :: rest, writes := w } port).2
          = Except.ok 0)
    ∧ (raw = "\n" →
        (input_get { replies := raw :: rest, writes := w } port).2
          = Except.error PyErr.typeError)
    ∧ (raw ≠ "\n" → pyIntParse (raw.dropRight 2) = none →
        (input_get { replies := raw :: rest, writes := w } port).2
          = Except.error PyErr.valueError) := by
  refine ⟨?_, ?_, ?_, ?_⟩
  · simp only [input_get]
    rw [comm_fst]
  · rintro rfl
    simp only [input_get]
    rw [comm_snd_cons, if_neg (by decide : ¬("0\r\n" = "\n"))]
    rfl
  · rintro rfl
    simp only [input_get]
    rw [comm_snd_cons, if_pos rfl]
    rfl
  · intro h hp
    simp only [input_get]
    rw [comm_snd_cons, if_neg h]
    simp [pyInt, hp]

/-- C3 (witness): a reply `"0\r\n"` yields `Except.ok 0`. -/
theorem C3_amended_witness :
    (input_get { replies := ["0\r\n"], writes := [] } "I1").2 = Except.ok 0 :=
  (C3_amended_thm [] [] "I1" "0\r\n").2.1 rfl

/-- C4: every enum-constrained facade call — `output_set` (mode),
`input_set_mode` (mode), `counter_set_mode` (mode), `motor_set` and
`motor_counter` (direction) — rejects a value outside its documented closed
set with `ValueError` and leaves the connection untouched: nothing is
written to the transport. -/
theorem C4_thm (c : Conn) (port modeS : String) (mode pwm counter : Int)
    (pwmO : Option Int) :
    (¬(mode = OFF ∨ mode = HIGH ∨ mode = LOW) →
      output_set c port mode pwmO = (c, Except.error PyErr.valueError))
    ∧ (pyToLower modeS ∉ VALID_INPUT_MODES →
      input_set_mode c port modeS = (c, Except.error PyErr.valueError))
    ∧ (pyToLower modeS ∉ VALID_COUNTER_MODES →
      counter_set_mode c port modeS = (c, Except.error PyErr.valueError))
    ∧ (pyToLower modeS ∉ VALID_MOTOR_DIRECTIONS →
      motor_set c port modeS pwmO = (c, Except.error PyErr.valueError))
    ∧ (pyToLower modeS ∉ VALID_MOTOR_DIRECTIONS →
      motor_counter c port modeS pwm counter
        = (c, Except.error PyErr.valueError)) := by
  refine ⟨?_, ?_, ?_, ?_, ?_⟩ <;> intro h <;>
    simp [output_set, input_set_mode, counter_set_mode, motor_set,
      motor_counter, h]

/-- C4 (witness): the invalid mode 28 and the invalid direction "forward"
are rejected with no write on every enum-constrained call. -/
theorem C4_witness :
    output_set { replies := [], writes := [] } "O2" 28 (some 512)
        = ({ replies := [], writes := [] }, Except.error PyErr.valueError)
    ∧ input_set_mode { replies := [], writes := [] } "I1" "forward"
        = ({ replies := [], writes := [] }, Except.error PyErr.valueError)
    ∧ counter_set_mode { replies := [], writes := [] } "C1" "forward"
        = ({ replies := [], writes := [] }, Except.error PyErr.valueError)
    ∧ motor_set { replies := [], writes := [] } "M1" "forward" none
        = ({ replies := [], writes := [] }, Except.error PyErr.valueError)
    ∧ motor_counter { replies := [], writes := [] } "M1" "forward" 512 100
        = ({ replies := [], writes := [] }, Except.error PyErr.valueError) := by
  have h1 := C4_thm { replies := [], writes := [] } "O2" "forward" 28 512 100
    (some 512)
  have h2 := C4_thm { replies := [], writes := [] } "I1" "forward" 28 512 100
    none
  have h3 := C4_thm { replies := [], writes := [] } "C1" "forward" 28 512 100
    none
  have h4 := C4_thm { replies := [], writes := [] } "M1" "forward" 28 512 100
    none
  exact ⟨h1.1 (by decide), h2.2.1 (by decide), h3.2.2.1 (by decide),
    h4.2.2.2.1 (by decide), h4.2.2.2.2 (by decide)⟩

/-- C5: the claim is false on the code. Neither port names nor pwm ranges
are validated: `output_set` with the bogus port "NOPORT" and the
out-of-range pwm 9999 succeeds and writes the values to the wire, and so
does `motor_counter` with pwm 99999. -/
theorem C5_counterexample :
    output_set { replies := [], writes := [] } "NOPORT" HIGH (some 9999)
      = ({ replies := [], writes := ["output_set NOPORT 1 9999\n"] },
          Except.ok ())
    ∧ motor_counter { replies := [], writes := [] } "NOPORT" "left" 99999 7
      = ({ replies := [], writes := ["motor_counter NOPORT left 99999 7\n"] },
          Except.ok ()) := ⟨rfl, rfl⟩

/-- C5 (amended): port names and pwm values are not validated client-side:
for every port string and every pwm integer (in range or not), `output_set`
with a valid mode and `motor_counter` with a valid direction succeed and
transmit the port and pwm verbatim; only the enum arguments are validated
before I/O. -/
theorem C5_amended_thm (c : Conn) (port : String) (pwm counter : Int) :
    (output_set c port HIGH (some pwm)).2 = Except.ok ()
    ∧ (output_set c port HIGH (some pwm)).1.writes
        = c.writes ++ ["output_set " ++ port ++ " " ++ toString HIGH ++ " "
            ++ toString pwm ++ "\n"]
    ∧ (motor_counter c port "left" pwm counter).2 = Except.ok ()
    ∧ (motor_counter c port "left" pwm counter).1.writes
        = c.writes ++ ["motor_counter " ++ port ++ " " ++ "left" ++ " "
            ++ toString pwm ++ " " ++ toString counter ++ "\n"] := by
  have hm : (HIGH = OFF ∨ HIGH = HIGH ∨ HIGH = LOW) := Or.inr (Or.inl rfl)
  have hd : pyToLower "left" ∈ VALID_MOTOR_DIRECTIONS := by decide
  refine ⟨?_, ?_, ?_, ?_⟩
  · unfold output_set
    rw [if_pos hm]
  · unfold output_set
    rw [if_pos hm, comm_fst]
  · simp only [motor_counter, if_pos hd]
  · simp only [motor_counter, if_pos hd]
    rw [comm_fst]

/-- C6: `output_set` with pwm omitted emits `output_set <port> <mode> <pwm>`
with pwm 512 for mode `HIGH` and pwm 0 for `OFF` and `LOW`, and rejects any
mode outside that set with `ValueError`. -/
theorem C6_thm (c : Conn) (port : String) (mode : Int) :
    ((mode = OFF ∨ mode = HIGH ∨ mode = LOW) →
      (output_set c port mode none).2 = Except.ok ()
      ∧ (output_set c port mode none).1.writes
          = c.writes ++ ["output_set " ++ port ++ " " ++ toString mode ++ " "
              ++ toString (if mode = HIGH then MAX else MIN) ++ "\n"])
    ∧ (¬(mode = OFF ∨ mode = HIGH ∨ mode = LOW) →
      output_set c port mode none = (c, Except.error PyErr.valueError)) := by
  constructor
  · intro h
    constructor
    · simp only [output_set, if_pos h]
    · simp only [output_set, if_pos h]
      rw [comm_fst]
  · intro h
    simp [output_set, h]

/-- C6 (witness): `output_set("O1", HIGH)` formats pwm 512, `OFF` and `LOW`
format pwm 0, and mode 7 is rejected. -/
theorem C6_witness :
    (output_set { replies := [], writes := [] } "O1" HIGH none).1.writes
      = ["output_set O1 1 512\n"]
    ∧ (output_set { replies := [], writes := [] } "O1" OFF none).1.writes
      = ["output_set O1 0 0\n"]
    ∧ (output_set { replies := [], writes := [] } "O1" LOW none).1.writes
      = ["output_set O1 2 0\n"]
    ∧ output_set { replies := [], writes := [] } "O1" 7 none
      = ({ replies := [], writes := [] }, Except.error PyErr.valueError) := by
  have h1 := ((C6_thm { replies := [], writes := [] } "O1" HIGH).1
    (Or.inr (Or.inl rfl))).2
  have h2 := ((C6_thm { replies := [], writes := [] } "O1" OFF).1
    (Or.inl rfl)).2
  have h3 := ((C6_thm { replies := [], writes := [] } "O1" LOW).1
    (Or.inr (Or.inr rfl))).2
  have h4 := (C6_thm { replies := [], writes := [] } "O1" 7).2 (by decide)
  exact ⟨by rw [h1]; rfl, by rw [h2]; rfl, by rw [h3]; rfl, h4⟩

/-- C7: `counter_get_state` returns `true` exactly when the reply payload
delivered by `comm` is `"1"`: for a raw reply line, true iff the stripped
payload equals `"1"`; a bare-terminator (absent) reply and a timed-out
empty read both give `false`; the call is total, so it never raises. -/
theorem C7_thm (rest w : List String) (port raw : String) :
    (raw ≠ "\n" →
      ((counter_get_state { replies := raw :: rest, writes := w } port).2
          = true
        ↔ raw.dropRight 2 = "1"))
    ∧ (counter_get_state { replies := "\n" :: rest, writes := w } port).2
        = false
    ∧ (counter_get_state { replies := [], writes := w } port).2 = false := by
  refine ⟨?_, ?_, ?_⟩
  · intro h
    simp only [counter_get_state]
    rw [comm_snd_cons, if_neg h]
    simp
  · simp only [counter_get_state]
    rw [comm_snd_cons, if_pos rfl]
    rfl
  · rfl

/-- C7 (witness): the payload `"1"` (raw `"1\r\n"`) gives `true`. -/
theorem C7_witness :
    (counter_get_state { replies := ["1\r\n"], writes := [] } "C1").2
      = true :=
  ((C7_thm [] [] "C1" "1\r\n").1 (by decide)).mpr rfl

/-- C8: `led_set True` writes exactly the line `"led_set 1\n"` to the
transport and returns Python `None` (no parsed value); `led_set False`
writes `"led_set 0\n"`. -/
theorem C8_thm (c : Conn) :
    (led_set c true).1.writes = c.writes ++ ["led_set 1\n"]
    ∧ (led_set c true).2 = ()
    ∧ (led_set c false).1.writes = c.writes ++ ["led_set 0\n"] := by
  refine ⟨?_, rfl, ?_⟩ <;> simp only [led_set] <;> rw [comm_fst] <;> rfl

/-- C9: `ftduino_find_by_name` scans the enumerated `(path, name)` pairs
linearly, returns the path of the first pair whose identifier equals the
requested name exactly, and returns `none` once the sequence is exhausted
without a match. -/
theorem C9_thm (name : String) (devices pre post : List (String × String))
    (d : String × String) :
    ((∀ p ∈ devices, p.2 ≠ name) → ftduino_find_by_name name devices = none)
    ∧ (devices = pre ++ d :: post → (∀ p ∈ pre, p.2 ≠ name) → d.2 = name →
        ftduino_find_by_name name devices = some d.1) := by
  constructor
  · exact find_by_name_none name devices
  · rintro rfl hpre hd
    induction pre with
    | nil =>
      rcases d with ⟨path, dname⟩
      simp only [List.nil_append, ftduino_find_by_name, if_pos hd]
    | cons q qre ih =>
      rcases q with ⟨qp, qn⟩
      have hq : qn ≠ name := hpre ⟨qp, qn⟩ (List.mem_cons_self _ _)
      simp only [List.cons_append, ftduino_find_by_name, if_neg hq]
      exact ih fun p hp => hpre p (List.mem_cons_of_mem _ hp)

/-- C9 (witness): with two devices named "b", the first path is returned;
with no device named "z", the scan returns `none`. -/
theorem C9_witness :
    ftduino_find_by_name "b" [("p1", "a"), ("p2", "b"), ("p3", "b")]
      = some "p2"
    ∧ ftduino_find_by_name "z" [("p1", "a"), ("p2", "b")] = none := by
  constructor
  · exact (C9_thm "b" [("p1", "a"), ("p2", "b"), ("p3", "b")] [("p1", "a")]
      [("p3", "b")] ("p2", "b")).2 rfl (by decide) rfl
  · exact (C9_thm "z" [("p1", "a"), ("p2", "b")] [] [] ("", "")).1 (by decide)

/-- C10: a mode or direction whose lowercased form is in the valid set is
accepted (validation is case-insensitive), and the line written to the wire
carries the caller's original string, not a normalized form. -/
theorem C10_thm (c : Conn) (port mode : String) (pwm counter : Int) :
    (pyToLower mode ∈ VALID_INPUT_MODES →
      (input_set_mode c port mode).2 = Except.ok ()
      ∧ (input_set_mode c port mode).1.writes
          = c.writes ++ ["input_set_mode " ++ port ++ " " ++ mode ++ "\n"])
    ∧ (pyToLower mode ∈ VALID_COUNTER_MODES →
      (counter_set_mode c port mode).2 = Except.ok ()
      ∧ (counter_set_mode c port mode).1.writes
          = c.writes ++ ["counter_set_mode " ++ port ++ " " ++ mode ++ "\n"])
    ∧ (pyToLower mode ∈ VALID_MOTOR_DIRECTIONS →
      (motor_set c port mode (some pwm)).2 = Except.ok ()
      ∧ (motor_set c port mode (some pwm)).1.writes
          = c.writes ++ ["motor_set " ++ port ++ " " ++ mode ++ " "
              ++ toString pwm ++ "\n"])
    ∧ (pyToLower mode ∈ VALID_MOTOR_DIRECTIONS →
      (motor_counter c port mode pwm counter).2 = Except.ok ()
      ∧ (motor_counter c port mode pwm counter).1.writes
          = c.writes ++ ["motor_counter " ++ port ++ " " ++ mode ++ " "
              ++ toString pwm ++ " " ++ toString counter ++ "\n"]) := by
  refine ⟨?_, ?_, ?_, ?_⟩ <;> intro h <;> constructor <;>
    simp only [input_set_mode, counter_set_mode, motor_set, motor_counter,
      if_pos h] <;> rw [comm_fst]

/-- C10 (witness): the uppercase-accepted arguments "SWITCH", "Rising",
"Left" and "BRAKE" all pass validation and appear verbatim on the wire. -/
theorem C10_witness :
    (input_set_mode { replies := [], writes := [] } "I1" "SWITCH").1.writes
      = ["input_set_mode I1 SWITCH\n"]
    ∧ (counter_set_mode { replies := [], writes := [] } "C1" "Rising").1.writes
      = ["counter_set_mode C1 Rising\n"]
    ∧ (motor_set { replies := [], writes := [] } "M1" "Left"
        (some 512)).1.writes
      = ["motor_set M1 Left 512\n"]
    ∧ (motor_counter { replies := [], writes := [] } "M1" "BRAKE"
        200 7).1.writes
      = ["motor_counter M1 BRAKE 200 7\n"] := by
  have h1 := (C10_thm { replies := [], writes := [] } "I1" "SWITCH" 512 7).1
    (by decide)
  have h2 := (C10_thm { replies := [], writes := [] } "C1" "Rising" 512 7).2.1
    (by decide)
  have h3 := (C10_thm { replies := [], writes := [] } "M1" "Left" 512 7).2.2.1
    (by decide)
  have h4 := (C10_thm { replies := [], writes := [] } "M1" "BRAKE" 200
    7).2.2.2 (by decide)
  exact ⟨by rw [h1.2]; rfl, by rw [h2.2]; rfl, by rw [h3.2]; rfl,
    by rw [h4.2]; rfl⟩

end Ftdu
